import Mathlib

/-!
Shallow embedding of the two-stage RAG pipeline
(VectorSearchService → CohereReranker → ResponseGenerator, orchestrated by
RAGPipeline, exposed through the query routes), together with theorems
settling the behavioural claims about it.

Numbers: scores are modelled as exact rationals (`ℚ`); JavaScript's special
float values (NaN, ±Infinity), which arise only in the comparison-mode
average computation, are modelled by the `JsNum` wrapper.  Millisecond
timestamps are abstract `Nat` values supplied by the environment.
-/

namespace RagSpec

/-- Paper metadata carried on every chunk (paper.types / ChunkMetadata). -/
structure Paper where
  title : String
  authors : String
  year : Int
  pages : Nat
  link : String
  code : String
deriving DecidableEq, Repr

/-- A Stage-1 result: paper, normalized similarity score, matched chunk. -/
structure SearchResult where
  paper : Paper
  score : ℚ
  chunkContent : String
deriving DecidableEq, Repr

/-- A Stage-2 result: `RerankResult extends SearchResult` with the rerank
score and the original vector-search score. -/
structure RerankResult extends SearchResult where
  rerankScore : ℚ
  originalScore : ℚ
deriving DecidableEq, Repr

/-- JavaScript `x || y` on numbers: `0` (and only `0` among the finite
rationals we model) is falsy, so it falls through to the default. -/
def jsOrNat (a b : Nat) : Nat :=
  if a = 0 then b else a

/-- Resolution of an optional numeric option against an env default, as in
`options.topK || env.RERANK_TOP_K` (an absent field is `undefined`, falsy). -/
def jsOrOptNat (a : Option Nat) (b : Nat) : Nat :=
  match a with
  | none => b
  | some x => jsOrNat x b

/-- JavaScript `x || y` on rational score values (`0` is falsy). -/
def jsOrQ (a b : ℚ) : ℚ :=
  if a = 0 then b else a

/-! ### VectorSearchService (Stage 1) -/

/-- A raw hit returned by `store.similaritySearchWithScore`: document
metadata, page content, and the raw distance. -/
structure RawSearchHit where
  metadata : Paper
  pageContent : String
  distance : ℚ
deriving DecidableEq, Repr

/-- `VectorSearchService.normalizeScore`: similarity = 1 − distance, clamped
to [0, 1]. -/
def normalizeScore (distance : ℚ) : ℚ :=
  max 0 (min 1 (1 - distance))

/-- The mapping step of `VectorSearchService.search`: each raw hit becomes a
`SearchResult` whose score is the normalized distance. -/
def searchResults (raw : List RawSearchHit) : List SearchResult :=
  raw.map fun hit =>
    { paper := hit.metadata
      score := normalizeScore hit.distance
      chunkContent := hit.pageContent }

/-! ### CohereReranker (Stage 2) -/

/-- One entry of the external rerank response: an index into the submitted
document array plus a relevance score. -/
structure RerankEntry where
  index : Nat
  relevanceScore : ℚ
deriving DecidableEq, Repr

/-- Rerank options (`RerankOptions`): an optional `topK`. -/
structure RerankOptions where
  topK : Option Nat := none
deriving DecidableEq, Repr

/-- `CohereReranker.fallbackToOriginalScores`: top-K candidates by original
order, with `rerankScore = originalScore = score`. -/
def fallbackToOriginalScores (candidates : List SearchResult) (topK : Nat) :
    List RerankResult :=
  (candidates.take topK).map fun candidate =>
    { toSearchResult := candidate
      rerankScore := candidate.score
      originalScore := candidate.score }

/-- The per-entry mapping step of `CohereReranker.rerank`: look up the
original candidate by the returned index; a missing candidate (out-of-range
index) is a thrown error, never a silent skip.  The mapped result updates
the main `score` with the rerank score. -/
def mapRerankEntry (candidates : List SearchResult) (result : RerankEntry) :
    Except String RerankResult :=
  match candidates[result.index]? with
  | none => Except.error ("Invalid rerank result index: " ++ toString result.index)
  | some originalCandidate => Except.ok
      { paper := originalCandidate.paper
        chunkContent := originalCandidate.chunkContent
        score := result.relevanceScore
        rerankScore := result.relevanceScore
        originalScore := originalCandidate.score }

/-- The mapping of the whole response (`response.results.map ...` inside the
try block): the first thrown error aborts the map. -/
def mapRerankResults (candidates : List SearchResult) :
    List RerankEntry → Except String (List RerankResult)
  | [] => Except.ok []
  | entry :: rest =>
    match mapRerankEntry candidates entry with
    | Except.error msg => Except.error msg
    | Except.ok r =>
      match mapRerankResults candidates rest with
      | Except.error msg => Except.error msg
      | Except.ok rs => Except.ok (r :: rs)

/-- Descending-by-rerankScore order used by the reranker's explicit sort
(comparator `(a, b) => b.rerankScore - a.rerankScore`). -/
def rerankGE (a b : RerankResult) : Prop :=
  b.rerankScore ≤ a.rerankScore

instance : DecidableRel rerankGE :=
  fun a b => inferInstanceAs (Decidable (b.rerankScore ≤ a.rerankScore))

instance : IsTotal RerankResult rerankGE :=
  ⟨fun a b => le_total b.rerankScore a.rerankScore⟩

instance : IsTrans RerankResult rerankGE :=
  ⟨fun _ _ _ hab hbc => le_trans hbc hab⟩

/-- The explicit sort `rerankedResults.sort((a, b) => b.rerankScore - a.rerankScore)`. -/
def sortByRerankScore (rs : List RerankResult) : List RerankResult :=
  List.insertionSort rerankGE rs

/-- `CohereReranker.rerank`.  `enabled` is `isCohereEnabled()` (the client is
non-null exactly when enabled); `envTopK` is `env.RERANK_TOP_K`; `response`
is the outcome of the external Cohere call (`Except.error` covers timeout,
auth failure, rate limit, malformed response — anything thrown by the call).
A mapping error (out-of-range index) is thrown inside the same try block and
therefore also resolves to the fallback. -/
def rerank (enabled : Bool) (envTopK : Nat)
    (response : Except String (List RerankEntry))
    (candidates : List SearchResult) (options : RerankOptions) :
    List RerankResult :=
  let topK := jsOrOptNat options.topK envTopK
  if !enabled then fallbackToOriginalScores candidates topK
  else if candidates.length = 0 then []
  else
    match response with
    | Except.error _ => fallbackToOriginalScores candidates topK
    | Except.ok entries =>
      match mapRerankResults candidates entries with
      | Except.error _ => fallbackToOriginalScores candidates topK
      | Except.ok rerankedResults => sortByRerankScore rerankedResults

/-! ### ResponseGenerator (Stage 3) -/

/-- User-facing source reference projected from a `RerankResult`. -/
structure SourceReference where
  title : String
  authors : String
  year : Int
  link : String
  pages : Nat
  relevanceScore : ℚ
  excerpt : String
deriving DecidableEq, Repr

/-- Generated answer together with its source references and model name. -/
structure GeneratedResponse where
  answer : String
  sources : List SourceReference
  modelUsed : String
deriving DecidableEq, Repr

/-- The fixed no-results answer.  The identical literal appears both in
`ResponseGenerator.generate` (empty sources) and in `RAGPipeline.query`
(empty candidates). -/
def noPapersAnswer : String :=
  "I could not find any relevant papers to answer your question. Please try rephrasing or asking about a different topic."

/-- Last index at which `c` occurs in the character list (JavaScript
`lastIndexOf`, with `Option.none` in place of `-1`). -/
def lastIdxOf (c : Char) : List Char → Option Nat
  | [] => none
  | x :: xs =>
    match lastIdxOf c xs with
    | some i => some (i + 1)
    | none => if x = c then some 0 else none

/-- `ResponseGenerator.extractExcerpt`: cut at a late sentence boundary when
one exists past 70% of the window, else hard-truncate with an ellipsis.
(The float threshold `0.7` is modelled by the rational `7/10`.) -/
def extractExcerpt (content : String) (maxLength : Nat) : String :=
  if content.length ≤ maxLength then content
  else
    let excerpt := content.take maxLength
    match lastIdxOf '.' excerpt.toList with
    | some lastPeriod =>
      if (maxLength : ℚ) * (7 / 10) < (lastPeriod : ℚ) then
        excerpt.take (lastPeriod + 1)
      else excerpt ++ "..."
    | none => excerpt ++ "..."

/-- The `SourceReference` built for one source inside
`ResponseGenerator.generate`: note `relevanceScore` is the JavaScript
expression `source.rerankScore || source.score`. -/
def toSourceReference (source : RerankResult) : SourceReference :=
  { title := source.paper.title
    authors := source.paper.authors
    year := source.paper.year
    link := source.paper.link
    pages := source.paper.pages
    relevanceScore := jsOrQ source.rerankScore source.score
    excerpt := extractExcerpt source.chunkContent 200 }

/-- One block of `ResponseGenerator.buildContext`: the five joined lines for
the source at 0-based position `index`, cited as `[index + 1]`. -/
def buildContextBlock (index : Nat) (source : RerankResult) : String :=
  "[" ++ toString (index + 1) ++ "] Title: " ++ source.paper.title ++ "\n" ++
  "    Authors: " ++ source.paper.authors ++ "\n" ++
  "    Year: " ++ toString source.paper.year ++ "\n" ++
  "    Relevant content: " ++ source.chunkContent.take 500 ++ "..." ++ "\n"

/-- The list of context blocks in positional order (`sources.map` with its
running index, starting at `index`). -/
def buildContextList (index : Nat) : List RerankResult → List String
  | [] => []
  | source :: rest => buildContextBlock index source :: buildContextList (index + 1) rest

/-- `ResponseGenerator.buildContext`: the blocks joined with newlines. -/
def buildContext (sources : List RerankResult) : String :=
  String.intercalate "\n" (buildContextList 0 sources)

/-- `ResponseGenerator.generate`.  `genCall` is the outcome of the chat-model
invocation (the answer text on success).  The second component records
whether a generation (network) call was performed: the empty-sources branch
returns the fixed answer without one; otherwise the call happens and its
failure is rethrown as a generation error. -/
def generate (modelName : String) (genCall : Except String String)
    (sources : List RerankResult) : Except String GeneratedResponse × Bool :=
  if sources.length = 0 then
    (Except.ok { answer := noPapersAnswer, sources := [], modelUsed := modelName }, false)
  else
    match genCall with
    | Except.error e => (Except.error ("Response generation failed: " ++ e), true)
    | Except.ok answer =>
      (Except.ok
        { answer := answer
          sources := sources.map toSourceReference
          modelUsed := modelName }, true)

/-! ### RAGPipeline (orchestrator) -/

/-- Query metadata (`QueryMetadata` in api.types): stage timings and counts.
`rerankTimeMs` is set only when the rerank stage actually ran. -/
structure QueryMetadata where
  retrievalTimeMs : Nat
  rerankTimeMs : Option Nat
  generationTimeMs : Nat
  totalTimeMs : Nat
  candidateCount : Nat
  finalCount : Nat
  modelUsed : String
deriving DecidableEq, Repr

/-- Response of a single pipeline query (`QueryResponse`). -/
structure QueryResponse where
  answer : String
  sources : List SourceReference
  metadata : QueryMetadata
deriving DecidableEq, Repr

/-- Pipeline execution options (`RAGOptions`). -/
structure RAGOptions where
  k : Option Nat := none
  candidatesK : Option Nat := none
  withReranking : Option Bool := none
deriving DecidableEq, Repr

/-- External-world inputs of one pipeline run: configuration (`env.*`,
`isCohereEnabled()`), the outcomes of the three external calls, and the
wall-clock durations observed when bracketing each stage. -/
structure PipelineEnv where
  vectorSearchK : Nat
  rerankTopK : Nat
  chatModel : String
  rerankerEnabled : Bool
  searchOutcome : Except String (List SearchResult)
  rerankOutcome : Except String (List RerankEntry)
  generationOutcome : Except String String
  retrievalTime : Nat
  rerankTime : Nat
  generationTime : Nat
  totalTime : Nat

/-- The collaborator operations a pipeline run invokes, in order. -/
inductive StageCall where
  | retrieve : StageCall
  | rerankStage : StageCall
  | synthesize : StageCall
deriving DecidableEq, Repr

/-- `RAGPipeline.query`: Stage 1 retrieval with an early exit on an empty
candidate set, optional Stage 2 reranking (only when requested and the
reranker is enabled), Stage 3 generation.  Alongside the response it returns
the trace of collaborator operations invoked. -/
def RAGPipeline.query (env : PipelineEnv) (options : RAGOptions) :
    Except String QueryResponse × List StageCall :=
  let finalK := jsOrOptNat options.k env.rerankTopK
  let withReranking : Bool := !(options.withReranking == some false)
  match env.searchOutcome with
  | Except.error e =>
    (Except.error ("RAG pipeline failed: " ++ e), [StageCall.retrieve])
  | Except.ok candidates =>
    let metadata0 : QueryMetadata :=
      { retrievalTimeMs := env.retrievalTime
        rerankTimeMs := none
        generationTimeMs := 0
        totalTimeMs := 0
        candidateCount := candidates.length
        finalCount := 0
        modelUsed := env.chatModel }
    if candidates.length = 0 then
      (Except.ok
        { answer := noPapersAnswer
          sources := []
          metadata := { metadata0 with totalTimeMs := env.totalTime } },
       [StageCall.retrieve])
    else
      let doRerank : Bool := withReranking && env.rerankerEnabled
      let finalResults :=
        if doRerank then
          rerank env.rerankerEnabled env.rerankTopK env.rerankOutcome candidates
            { topK := some finalK }
        else
          (candidates.take finalK).map fun candidate =>
            { toSearchResult := candidate
              rerankScore := candidate.score
              originalScore := candidate.score }
      let metadata1 :=
        if doRerank then { metadata0 with rerankTimeMs := some env.rerankTime }
        else metadata0
      let trace :=
        if doRerank then [StageCall.retrieve, StageCall.rerankStage]
        else [StageCall.retrieve]
      match generate env.chatModel env.generationOutcome finalResults with
      | (Except.error e, _) =>
        (Except.error ("RAG pipeline failed: " ++ e), trace ++ [StageCall.synthesize])
      | (Except.ok gen, _) =>
        (Except.ok
          { answer := gen.answer
            sources := gen.sources
            metadata :=
              { metadata1 with
                generationTimeMs := env.generationTime
                modelUsed := gen.modelUsed
                finalCount := finalResults.length
                totalTimeMs := env.totalTime } },
         trace ++ [StageCall.synthesize])

/-! ### Comparison mode -/

/-- A JavaScript number as needed by the comparison metrics: NaN, the two
infinities, or a finite rational. -/
inductive JsNum where
  | nan : JsNum
  | posInf : JsNum
  | negInf : JsNum
  | num : ℚ → JsNum
deriving DecidableEq, Repr

/-- IEEE-style division as JavaScript performs it on the values arising
here: finite/finite with a zero divisor gives NaN (0/0) or a signed
infinity; any non-finite operand (never produced by the code under study)
conservatively gives NaN. -/
def jsDiv : JsNum → JsNum → JsNum
  | JsNum.num a, JsNum.num b =>
    if b = 0 then
      if a = 0 then JsNum.nan
      else if 0 < a then JsNum.posInf
      else JsNum.negInf
    else JsNum.num (a / b)
  | _, _ => JsNum.nan

/-- IEEE-style subtraction: NaN propagates; ∞ − ∞ is NaN. -/
def jsSub : JsNum → JsNum → JsNum
  | JsNum.num a, JsNum.num b => JsNum.num (a - b)
  | JsNum.nan, _ => JsNum.nan
  | _, JsNum.nan => JsNum.nan
  | JsNum.posInf, JsNum.posInf => JsNum.nan
  | JsNum.posInf, _ => JsNum.posInf
  | JsNum.negInf, JsNum.negInf => JsNum.nan
  | JsNum.negInf, _ => JsNum.negInf
  | JsNum.num _, JsNum.posInf => JsNum.negInf
  | JsNum.num _, JsNum.negInf => JsNum.posInf

/-- The comparison metrics (`improvement` in `queryWithComparison`). -/
structure Improvement where
  latencyDiff : Int
  sourcesChanged : Bool
  avgScoreImprovement : JsNum
deriving DecidableEq, Repr

/-- Result of `RAGPipeline.queryWithComparison`. -/
structure ComparisonResponse where
  withReranking : QueryResponse
  withoutReranking : QueryResponse
  improvement : Improvement
deriving DecidableEq, Repr

/-- The unguarded average `sources.reduce((sum, s) => sum + s.relevanceScore, 0)
/ sources.length` of `queryWithComparison`: dividing by a zero length. -/
def avgRelevanceScore (r : QueryResponse) : JsNum :=
  jsDiv (JsNum.num (r.sources.foldl (fun sum s => sum + s.relevanceScore) 0))
    (JsNum.num (r.sources.length : ℚ))

/-- `RAGPipeline.queryWithComparison`: run the pipeline with reranking
forced on and forced off (a rejected run rejects the whole comparison, as
`Promise.all` does), then derive the improvement metrics.  `sourcesChanged`
compares the optional titles of the two head sources with `!==`. -/
def queryWithComparison (env : PipelineEnv) : Except String ComparisonResponse :=
  match (RAGPipeline.query env { withReranking := some true }).1,
        (RAGPipeline.query env { withReranking := some false }).1 with
  | Except.error e, _ => Except.error e
  | Except.ok _, Except.error e => Except.error e
  | Except.ok withR, Except.ok withoutR =>
    Except.ok
      { withReranking := withR
        withoutReranking := withoutR
        improvement :=
          { latencyDiff :=
              (withR.metadata.totalTimeMs : Int) - (withoutR.metadata.totalTimeMs : Int)
            sourcesChanged :=
              decide (withR.sources.head?.map SourceReference.title ≠
                withoutR.sources.head?.map SourceReference.title)
            avgScoreImprovement :=
              jsSub (avgRelevanceScore withR) (avgRelevanceScore withoutR) } }

/-! ### Batch route (POST /api/query/batch) -/

/-- Body of the batch response. -/
structure BatchResponse where
  queries : Nat
  results : List QueryResponse
  totalTimeMs : Nat
deriving DecidableEq, Repr

/-- The batch handler: zod validation rejects more than 10 queries (and any
empty query string) before the pipeline is touched; an accepted batch maps
the pipeline over the queries and sums the individual `totalTimeMs` values.
`run` is the pipeline call for one query (capturing `k`/`withReranking`);
the second component counts pipeline invocations. -/
def queryBatch (run : String → QueryResponse) (queries : List String) :
    Except String BatchResponse × Nat :=
  if 10 < queries.length then (Except.error "Invalid request body", 0)
  else if queries.any (fun q => q.length = 0) then
    (Except.error "Invalid request body", 0)
  else
    let results := queries.map run
    (Except.ok
      { queries := queries.length
        results := results
        totalTimeMs := results.foldl (fun sum r => sum + r.metadata.totalTimeMs) 0 },
     queries.length)

/-! ### Concrete values used to instantiate the theorems -/

/-- A concrete paper used in instantiations. -/
def examplePaper : Paper :=
  { title := "Attention Is All You Need"
    authors := "A. Author"
    year := 2020
    pages := 12
    link := "https://example.org/p"
    code := "yes" }

/-- A concrete Stage-1 candidate. -/
def exampleCandidate : SearchResult :=
  { paper := examplePaper, score := 1/2, chunkContent := "Some chunk text." }

/-- A concrete reranked candidate with a nonzero rerank score. -/
def exampleRanked : RerankResult :=
  { paper := examplePaper
    score := 3/4
    chunkContent := "Chunk."
    rerankScore := 3/4
    originalScore := 1/2 }

/-- A concrete reranked candidate whose rerank score is exactly zero while
its main score is not. -/
def zeroScoreSource : RerankResult :=
  { paper := examplePaper
    score := 1/2
    chunkContent := "Chunk."
    rerankScore := 0
    originalScore := 1/2 }

/-- A concrete raw hit whose distance lies outside [0, 2]. -/
def exampleHit : RawSearchHit :=
  { metadata := examplePaper, pageContent := "c", distance := 3 }

/-- The search result produced for `exampleHit`. -/
def exampleHitResult : SearchResult :=
  { paper := examplePaper, score := normalizeScore 3, chunkContent := "c" }

/-- A concrete environment whose retrieval stage returns no candidates. -/
def emptySearchEnv : PipelineEnv :=
  { vectorSearchK := 20
    rerankTopK := 5
    chatModel := "gpt-4o-mini"
    rerankerEnabled := true
    searchOutcome := Except.ok []
    rerankOutcome := Except.ok []
    generationOutcome := Except.ok "answer"
    retrievalTime := 3
    rerankTime := 4
    generationTime := 5
    totalTime := 9 }

/-- A concrete query response with `totalTimeMs = 7`. -/
def constResponse : QueryResponse :=
  { answer := "a"
    sources := []
    metadata :=
      { retrievalTimeMs := 1
        rerankTimeMs := none
        generationTimeMs := 2
        totalTimeMs := 7
        candidateCount := 0
        finalCount := 0
        modelUsed := "m" } }

/-- Eleven queries: one more than the batch limit. -/
def elevenQueries : List String :=
  ["q", "q", "q", "q", "q", "q", "q", "q", "q", "q", "q"]

/-! ### Helper lemmas -/

/-- The fallback projection keeps `min topK len` items. -/
theorem fallbackToOriginalScores_length (candidates : List SearchResult) (topK : Nat) :
    (fallbackToOriginalScores candidates topK).length = min topK candidates.length := by
  simp [fallbackToOriginalScores]

/-- An out-of-range index anywhere in the response makes the mapping step
fail with an error. -/
theorem mapRerankResults_error_of_oob (candidates : List SearchResult)
    (entries : List RerankEntry) (e : RerankEntry) (he : e ∈ entries)
    (hoob : candidates.length ≤ e.index) :
    ∃ msg, mapRerankResults candidates entries = Except.error msg := by
  induction entries with
  | nil => cases he
  | cons entry rest ih =>
    rcases List.mem_cons.mp he with rfl | hmem
    · have hnone : candidates[e.index]? = none := by
        rw [List.getElem?_eq_none_iff]
        exact hoob
      refine ⟨"Invalid rerank result index: " ++ toString e.index, ?_⟩
      simp [mapRerankResults, mapRerankEntry, hnone]
    · obtain ⟨msg, hmsg⟩ := ih hmem
      cases hmap : mapRerankEntry candidates entry with
      | error msg' => exact ⟨msg', by simp [mapRerankResults, hmap]⟩
      | ok r => exact ⟨msg, by simp [mapRerankResults, hmap, hmsg]⟩

/-- Unfolding `RAGPipeline.query` on an empty retrieval result. -/
theorem query_empty_candidates (env : PipelineEnv) (options : RAGOptions)
    (h : env.searchOutcome = Except.ok []) :
    RAGPipeline.query env options =
      (Except.ok
        { answer := noPapersAnswer
          sources := []
          metadata :=
            { retrievalTimeMs := env.retrievalTime
              rerankTimeMs := none
              generationTimeMs := 0
              totalTimeMs := env.totalTime
              candidateCount := 0
              finalCount := 0
              modelUsed := env.chatModel } },
       [StageCall.retrieve]) := by
  unfold RAGPipeline.query
  rw [h]
  rfl

/-- Folding an accumulator over adds of a projection is summing the mapped
list. -/
theorem foldl_add_eq_sum {α : Type} (f : α → Nat) :
    ∀ (l : List α) (init : Nat),
      l.foldl (fun sum x => sum + f x) init = init + (l.map f).sum
  | [], init => by simp
  | x :: xs, init => by
    simp [List.foldl_cons, foldl_add_eq_sum f xs (init + f x), Nat.add_assoc]

/-- The indexed block list reads back positionally. -/
theorem buildContextList_getElem? (index i : Nat) (sources : List RerankResult) :
    (buildContextList index sources)[i]? =
      (sources[i]?).map (buildContextBlock (index + i)) := by
  induction sources generalizing index i with
  | nil => simp [buildContextList]
  | cons s rest ih =>
    cases i with
    | zero => simp [buildContextList]
    | succ n =>
      have harith : index + 1 + n = index + (n + 1) := by omega
      simp [buildContextList, ih (index + 1) n, harith]

/-! ### C1: out-of-range rerank indices error at the mapping step and
resolve to the fallback -/

/-- C1.  If the external scoring call returns some index outside
[0, len(candidates)), the mapping step of `rerank` fails with an error
(no silent skip or mis-map), and `rerank` recovers locally by returning the
no-op fallback projection instead of surfacing the error. -/
theorem rerank_oob_index_fallback (envTopK : Nat) (options : RerankOptions)
    (candidates : List SearchResult) (entries : List RerankEntry) (e : RerankEntry)
    (hne : candidates ≠ []) (he : e ∈ entries)
    (hoob : candidates.length ≤ e.index) :
    (∃ msg, mapRerankResults candidates entries = Except.error msg) ∧
    rerank true envTopK (Except.ok entries) candidates options =
      fallbackToOriginalScores candidates (jsOrOptNat options.topK envTopK) := by
  obtain ⟨msg, hmsg⟩ := mapRerankResults_error_of_oob candidates entries e he hoob
  refine ⟨⟨msg, hmsg⟩, ?_⟩
  have hlen : candidates.length ≠ 0 := by
    simpa [List.length_eq_zero] using hne
  simp [rerank, hlen, hmsg]

/-- Instantiation of C1: a one-candidate list with returned index 5. -/
theorem rerank_oob_index_fallback_witness :
    (∃ msg, mapRerankResults [exampleCandidate]
        [{ index := 5, relevanceScore := 9/10 }] = Except.error msg) ∧
    rerank true 3 (Except.ok [{ index := 5, relevanceScore := 9/10 }])
        [exampleCandidate] {} =
      fallbackToOriginalScores [exampleCandidate] (jsOrOptNat none 3) :=
  rerank_oob_index_fallback 3 {} [exampleCandidate]
    [{ index := 5, relevanceScore := 9/10 }] { index := 5, relevanceScore := 9/10 }
    (List.cons_ne_nil _ _) (List.mem_singleton.mpr rfl) (by simp)

/-! ### C2: disabled reranker or failed call yields the truncated identity
projection -/

/-- C2.  When the reranker is disabled or the external call errors, `rerank`
returns exactly the first `min(topK, len(candidates))` candidates in their
original relative order, each with `rerankScore = originalScore = score`. -/
theorem rerank_disabled_or_error_fallback (enabled : Bool) (envTopK topK : Nat)
    (response : Except String (List RerankEntry))
    (candidates : List SearchResult) (options : RerankOptions)
    (h : enabled = false ∨ ∃ msg, response = Except.error msg)
    (htopK : topK = jsOrOptNat options.topK envTopK) :
    rerank enabled envTopK response candidates options =
      fallbackToOriginalScores candidates topK ∧
    (rerank enabled envTopK response candidates options).length =
      min topK candidates.length ∧
    ∀ i (hi : i < candidates.length), i < topK →
      (rerank enabled envTopK response candidates options)[i]? =
        some { toSearchResult := candidates.get ⟨i, hi⟩
               rerankScore := (candidates.get ⟨i, hi⟩).score
               originalScore := (candidates.get ⟨i, hi⟩).score } := by
  subst htopK
  have hmain : rerank enabled envTopK response candidates options =
      fallbackToOriginalScores candidates (jsOrOptNat options.topK envTopK) := by
    rcases h with hdis | ⟨msg, herr⟩
    · simp [rerank, hdis]
    · cases enabled with
      | false => simp [rerank]
      | true =>
        rcases hcand : candidates with _ | ⟨c, cs⟩
        · simp [rerank, herr, fallbackToOriginalScores]
        · simp [rerank, herr]
  refine ⟨hmain, ?_, ?_⟩
  · rw [hmain, fallbackToOriginalScores_length]
  · intro i hi hik
    rw [hmain]
    simp [fallbackToOriginalScores, List.getElem?_take, hik,
      List.getElem?_eq_getElem hi]

/-- Instantiation of C2: two candidates, reranker call failed, topK 1. -/
theorem rerank_disabled_or_error_fallback_witness :
    rerank true 5 (Except.error "timeout") [exampleCandidate] { topK := some 1 } =
      fallbackToOriginalScores [exampleCandidate] 1 ∧
    (rerank true 5 (Except.error "timeout") [exampleCandidate]
        { topK := some 1 }).length = min 1 1 ∧
    ∀ i (hi : i < [exampleCandidate].length), i < 1 →
      (rerank true 5 (Except.error "timeout") [exampleCandidate]
          { topK := some 1 })[i]? =
        some { toSearchResult := [exampleCandidate].get ⟨i, hi⟩
               rerankScore := ([exampleCandidate].get ⟨i, hi⟩).score
               originalScore := ([exampleCandidate].get ⟨i, hi⟩).score } := by
  have h := rerank_disabled_or_error_fallback true 5 1 (Except.error "timeout")
    [exampleCandidate] { topK := some 1 } (Or.inr ⟨"timeout", rfl⟩) rfl
  simpa using h

/-! ### C3: a successful rerank is explicitly sorted descending -/

/-- C3.  When reranking is enabled, candidates are non-empty, the external
call succeeds and every returned index is in bounds, `rerank` returns its
own explicit descending sort of the mapped results — whatever order the
external call returned them in. -/
theorem rerank_success_sorted (envTopK : Nat) (options : RerankOptions)
    (candidates : List SearchResult) (entries : List RerankEntry)
    (rs : List RerankResult) (hne : candidates ≠ [])
    (hmap : mapRerankResults candidates entries = Except.ok rs) :
    rerank true envTopK (Except.ok entries) candidates options =
      sortByRerankScore rs ∧
    List.Sorted rerankGE (rerank true envTopK (Except.ok entries) candidates options) ∧
    (rerank true envTopK (Except.ok entries) candidates options).Perm rs := by
  have hlen : candidates.length ≠ 0 := by
    simpa [List.length_eq_zero] using hne
  have hmain : rerank true envTopK (Except.ok entries) candidates options =
      sortByRerankScore rs := by
    simp [rerank, hlen, hmap]
  refine ⟨hmain, ?_, ?_⟩
  · rw [hmain]
    exact List.sorted_insertionSort rerankGE rs
  · rw [hmain]
    exact List.perm_insertionSort rerankGE rs

/-- Instantiation of C3: two candidates returned out of order by the
external call. -/
theorem rerank_success_sorted_witness :
    rerank true 5
        (Except.ok [{ index := 0, relevanceScore := 1/4 },
          { index := 1, relevanceScore := 9/10 }])
        [exampleCandidate, exampleCandidate] {} =
      sortByRerankScore
        [{ paper := exampleCandidate.paper
           chunkContent := exampleCandidate.chunkContent
           score := 1/4
           rerankScore := 1/4
           originalScore := exampleCandidate.score },
         { paper := exampleCandidate.paper
           chunkContent := exampleCandidate.chunkContent
           score := 9/10
           rerankScore := 9/10
           originalScore := exampleCandidate.score }] ∧
    List.Sorted rerankGE
      (rerank true 5
        (Except.ok [{ index := 0, relevanceScore := 1/4 },
          { index := 1, relevanceScore := 9/10 }])
        [exampleCandidate, exampleCandidate] {}) ∧
    (rerank true 5
        (Except.ok [{ index := 0, relevanceScore := 1/4 },
          { index := 1, relevanceScore := 9/10 }])
        [exampleCandidate, exampleCandidate] {}).Perm
      [{ paper := exampleCandidate.paper
         chunkContent := exampleCandidate.chunkContent
         score := 1/4
         rerankScore := 1/4
         originalScore := exampleCandidate.score },
       { paper := exampleCandidate.paper
         chunkContent := exampleCandidate.chunkContent
         score := 9/10
         rerankScore := 9/10
         originalScore := exampleCandidate.score }] :=
  rerank_success_sorted 5 {} [exampleCandidate, exampleCandidate]
    [{ index := 0, relevanceScore := 1/4 }, { index := 1, relevanceScore := 9/10 }]
    _ (List.cons_ne_nil _ _) rfl

/-! ### C4: retriever scores are the clamped similarity and lie in [0, 1] -/

/-- C4.  Every candidate score produced by the search mapping equals
`clamp(1 - distance, 0, 1)` of the corresponding raw distance, positionally,
and hence every score lies in [0, 1] — whatever the raw distances were. -/
theorem retriever_scores_clamped (raw : List RawSearchHit) :
    (searchResults raw).length = raw.length ∧
    (∀ i : Nat, ((searchResults raw)[i]?).map SearchResult.score =
      (raw[i]?).map fun hit => max 0 (min 1 (1 - hit.distance))) ∧
    ∀ r ∈ searchResults raw, 0 ≤ r.score ∧ r.score ≤ 1 := by
  refine ⟨by simp [searchResults], ?_, ?_⟩
  · intro i
    simp only [searchResults, List.getElem?_map]
    cases raw[i]? <;> simp [normalizeScore]
  · intro r hr
    simp only [searchResults, List.mem_map] at hr
    obtain ⟨hit, -, rfl⟩ := hr
    constructor
    · exact le_max_left 0 _
    · exact max_le zero_le_one (min_le_left 1 _)

/-- Instantiation of C4 at a raw distance of 3 (outside [0, 2]): the
resulting score is still within [0, 1]. -/
theorem retriever_scores_clamped_witness :
    ((searchResults [exampleHit])[0]?).map SearchResult.score =
      some (max 0 (min 1 (1 - (3 : ℚ)))) ∧
    (0 ≤ exampleHitResult.score ∧ exampleHitResult.score ≤ 1) := by
  constructor
  · simpa [exampleHit] using (retriever_scores_clamped [exampleHit]).2.1 0
  · exact (retriever_scores_clamped [exampleHit]).2.2 _
      (by simp [searchResults, exampleHit, exampleHitResult])

/-! ### C5: empty retrieval takes the early exit -/

/-- C5.  When retrieval returns an empty candidate list the orchestrator
early-exits: the response is the fixed no-results answer with no sources and
`candidateCount = 0`, and neither the rerank operation nor the synthesis
operation appears in the invocation trace. -/
theorem pipeline_no_candidates_early_exit (env : PipelineEnv) (options : RAGOptions)
    (h : env.searchOutcome = Except.ok []) :
    (RAGPipeline.query env options).1 =
      Except.ok
        { answer := noPapersAnswer
          sources := []
          metadata :=
            { retrievalTimeMs := env.retrievalTime
              rerankTimeMs := none
              generationTimeMs := 0
              totalTimeMs := env.totalTime
              candidateCount := 0
              finalCount := 0
              modelUsed := env.chatModel } } ∧
    StageCall.rerankStage ∉ (RAGPipeline.query env options).2 ∧
    StageCall.synthesize ∉ (RAGPipeline.query env options).2 := by
  rw [query_empty_candidates env options h]
  exact ⟨rfl, by simp, by simp⟩

/-- Instantiation of C5 on a concrete environment with empty retrieval. -/
theorem pipeline_no_candidates_early_exit_witness :
    (RAGPipeline.query emptySearchEnv {}).1 =
      Except.ok
        { answer := noPapersAnswer
          sources := []
          metadata :=
            { retrievalTimeMs := 3
              rerankTimeMs := none
              generationTimeMs := 0
              totalTimeMs := 9
              candidateCount := 0
              finalCount := 0
              modelUsed := "gpt-4o-mini" } } ∧
    StageCall.rerankStage ∉ (RAGPipeline.query emptySearchEnv {}).2 ∧
    StageCall.synthesize ∉ (RAGPipeline.query emptySearchEnv {}).2 :=
  pipeline_no_candidates_early_exit emptySearchEnv {} rfl

/-! ### C6: the synthesizer short-circuits on empty sources -/

/-- C6.  `generate` on an empty source list returns the fixed
no-relevant-material answer with an empty sources array and performs no
generation call (the second component is `false`), for every outcome the
generation call would have had. -/
theorem generate_empty_sources (modelName : String) (genCall : Except String String) :
    generate modelName genCall [] =
      (Except.ok { answer := noPapersAnswer, sources := [], modelUsed := modelName },
       false) :=
  rfl

/-! ### C7: citations are 1-based and positional -/

/-- C7.  The context block for the source at 0-based position `i` carries
the citation index `i + 1` and that source's own fields, and the returned
source references are the positional projection of the argument list. -/
theorem generate_citation_positional (sources : List RerankResult) (i : Nat)
    (hi : i < sources.length) (modelName answer : String) :
    (buildContextList 0 sources)[i]? =
      some ("[" ++ toString (i + 1) ++ "] Title: " ++
        (sources.get ⟨i, hi⟩).paper.title ++ "\n" ++
        "    Authors: " ++ (sources.get ⟨i, hi⟩).paper.authors ++ "\n" ++
        "    Year: " ++ toString (sources.get ⟨i, hi⟩).paper.year ++ "\n" ++
        "    Relevant content: " ++ (sources.get ⟨i, hi⟩).chunkContent.take 500 ++
        "..." ++ "\n") ∧
    (generate modelName (Except.ok answer) sources).1 =
      Except.ok
        { answer := answer
          sources := sources.map toSourceReference
          modelUsed := modelName } ∧
    ((sources.map toSourceReference)[i]?) =
      some (toSourceReference (sources.get ⟨i, hi⟩)) := by
  have hlen : sources.length ≠ 0 := by omega
  refine ⟨?_, ?_, ?_⟩
  · rw [buildContextList_getElem? 0 i sources, List.getElem?_eq_getElem hi]
    simp [buildContextBlock]
  · simp [generate, hlen]
  · rw [List.getElem?_map, List.getElem?_eq_getElem hi]
    rfl

/-- Instantiation of C7 on a single source at position 0. -/
theorem generate_citation_positional_witness :
    (buildContextList 0 [exampleRanked])[0]? =
      some ("[" ++ toString (0 + 1) ++ "] Title: " ++
        ([exampleRanked].get ⟨0, by simp⟩).paper.title ++ "\n" ++
        "    Authors: " ++ ([exampleRanked].get ⟨0, by simp⟩).paper.authors ++ "\n" ++
        "    Year: " ++ toString ([exampleRanked].get ⟨0, by simp⟩).paper.year ++ "\n" ++
        "    Relevant content: " ++
        ([exampleRanked].get ⟨0, by simp⟩).chunkContent.take 500 ++ "..." ++ "\n") ∧
    (generate "m" (Except.ok "a") [exampleRanked]).1 =
      Except.ok
        { answer := "a"
          sources := [exampleRanked].map toSourceReference
          modelUsed := "m" } ∧
    (([exampleRanked].map toSourceReference)[0]?) =
      some (toSourceReference ([exampleRanked].get ⟨0, by simp⟩)) :=
  generate_citation_positional [exampleRanked] 0 (by simp) "m" "a"

/-! ### C8: relevanceScore versus rerankScore

The claim that `relevanceScore` always equals the candidate's `rerankScore`
— "including when rerankScore is 0" — fails on the code: the projection is
the JavaScript expression `source.rerankScore || source.score`, and `0` is
falsy, so a candidate with `rerankScore = 0` and a different main `score`
gets that main score instead. -/

/-- Counterexample to C8 as stated: `zeroScoreSource` has
`rerankScore = 0` and `score = 1/2`; the synthesizer's projection gives it
`relevanceScore = 1/2 ≠ 0`. -/
theorem generate_relevance_zero_counterexample :
    zeroScoreSource.rerankScore = 0 ∧
    (generate "m" (Except.ok "a") [zeroScoreSource]).1 =
      Except.ok
        { answer := "a"
          sources := [toSourceReference zeroScoreSource]
          modelUsed := "m" } ∧
    (toSourceReference zeroScoreSource).relevanceScore = 1/2 ∧
    (1 : ℚ)/2 ≠ 0 := by
  refine ⟨rfl, rfl, ?_, by norm_num⟩
  norm_num [toSourceReference, jsOrQ, zeroScoreSource]

/-- C8 amended.  The `SourceReference` produced for a candidate has
`relevanceScore` equal to that candidate's `rerankScore` whenever
`rerankScore ≠ 0`, or whenever the candidate's main `score` agrees with its
`rerankScore` (which holds for every candidate the pipeline itself builds);
when `rerankScore = 0` and the scores disagree, the falsy-`||` projection
substitutes the main score. -/
theorem generate_relevance_eq_rerankScore (sources : List RerankResult) (i : Nat)
    (hi : i < sources.length) (modelName answer : String)
    (hscore : (sources.get ⟨i, hi⟩).rerankScore ≠ 0 ∨
      (sources.get ⟨i, hi⟩).score = (sources.get ⟨i, hi⟩).rerankScore) :
    (generate modelName (Except.ok answer) sources).1 =
      Except.ok
        { answer := answer
          sources := sources.map toSourceReference
          modelUsed := modelName } ∧
    ((sources.map toSourceReference)[i]?).map SourceReference.relevanceScore =
      some (sources.get ⟨i, hi⟩).rerankScore := by
  have hlen : sources.length ≠ 0 := by omega
  refine ⟨by simp [generate, hlen], ?_⟩
  rw [List.getElem?_map, List.getElem?_eq_getElem hi]
  simp only [Option.map_some']
  congr 1
  unfold toSourceReference jsOrQ
  simp only [List.get_eq_getElem] at hscore ⊢
  by_cases h0 : sources[i].rerankScore = 0
  · rw [if_pos h0]
    rcases hscore with hne | heq
    · exact absurd h0 hne
    · exact heq
  · rw [if_neg h0]

/-- Instantiation of the amended C8 at a source with nonzero rerank score. -/
theorem generate_relevance_eq_rerankScore_witness :
    (generate "m" (Except.ok "a") [exampleRanked]).1 =
      Except.ok
        { answer := "a"
          sources := [exampleRanked].map toSourceReference
          modelUsed := "m" } ∧
    (([exampleRanked].map toSourceReference)[0]?).map SourceReference.relevanceScore =
      some ([exampleRanked].get ⟨0, by simp⟩).rerankScore :=
  generate_relevance_eq_rerankScore [exampleRanked] 0 (by simp) "m" "a"
    (Or.inl (by norm_num [exampleRanked]))

/-! ### C9: batch limit and aggregate time -/

/-- C9.  A batch of more than 10 queries is rejected by validation with no
pipeline invocation (the call counter stays 0); an accepted batch runs the
pipeline once per query and reports the sum of the individual responses'
`totalTimeMs` values as the aggregate, not any wall-clock quantity. -/
theorem batch_limit_and_total_sum (run : String → QueryResponse)
    (queries : List String) :
    (10 < queries.length →
      queryBatch run queries = (Except.error "Invalid request body", 0)) ∧
    (queries.length ≤ 10 → (∀ q ∈ queries, q.length ≠ 0) →
      queryBatch run queries =
        (Except.ok
          { queries := queries.length
            results := queries.map run
            totalTimeMs := ((queries.map run).map fun r => r.metadata.totalTimeMs).sum },
         queries.length)) := by
  constructor
  · intro h
    simp [queryBatch, h]
  · intro h1 h2
    have hlt : ¬ 10 < queries.length := by omega
    have hany : queries.any (fun q => q.length = 0) = false := by
      rw [List.any_eq_false]
      intro q hq
      simpa using h2 q hq
    simp only [queryBatch, hlt, if_false, hany, Bool.false_eq_true]
    rw [foldl_add_eq_sum (fun r => r.metadata.totalTimeMs) (queries.map run) 0]
    simp

/-- Instantiation of C9: eleven queries are rejected without any pipeline
call; a two-query batch totals 7 + 7 = 14 ms. -/
theorem batch_limit_and_total_sum_witness :
    queryBatch (fun _ => constResponse) elevenQueries =
      (Except.error "Invalid request body", 0) ∧
    queryBatch (fun _ => constResponse) ["q1", "q2"] =
      (Except.ok
        { queries := 2
          results := [constResponse, constResponse]
          totalTimeMs := 14 }, 2) := by
  constructor
  · exact (batch_limit_and_total_sum (fun _ => constResponse) elevenQueries).1
      (by simp [elevenQueries])
  · have h := (batch_limit_and_total_sum (fun _ => constResponse) ["q1", "q2"]).2
      (by simp) (by decide)
    rw [h]
    rfl

/-! ### C10: comparison mode divides by zero on empty results -/

/-- C10.  `queryWithComparison` computes each run's average relevance score
as sum / length with no zero guard: when retrieval returns no candidates,
both runs return empty sources, both averages are 0/0 = NaN, the reported
`avgScoreImprovement` is NaN, and `sourcesChanged` evaluates to `false`. -/
theorem comparison_nan_on_empty (env : PipelineEnv)
    (h : env.searchOutcome = Except.ok []) :
    ∃ resp, queryWithComparison env = Except.ok resp ∧
      resp.improvement.avgScoreImprovement = JsNum.nan ∧
      resp.improvement.sourcesChanged = false := by
  unfold queryWithComparison
  rw [query_empty_candidates env { withReranking := some true } h,
    query_empty_candidates env { withReranking := some false } h]
  exact ⟨_, rfl, rfl, rfl⟩

/-- Instantiation of C10 on a concrete environment with empty retrieval. -/
theorem comparison_nan_on_empty_witness :
    ∃ resp, queryWithComparison emptySearchEnv = Except.ok resp ∧
      resp.improvement.avgScoreImprovement = JsNum.nan ∧
      resp.improvement.sourcesChanged = false :=
  comparison_nan_on_empty emptySearchEnv rfl

end RagSpec
